import Mathlib

/-!
Shallow embedding of `my-react-app/backend/routes/Registration.mjs`.

The module wires three Express handlers:
  * `POST /api/register` — field validation, two uniqueness lookups,
    password hashing, document save, session attachment;
  * `GET /api/register/usercheck/:username` — availability lookup;
  * `GET /api/register/emailcheck/:email` — availability lookup.

The user store (Mongoose `user` model) is embedded as a list of documents;
`findOne` is exact-match `List.find?`, `save` appends a copy of the document
carrying a store-assigned identifier.  The external collaborators
`hashPassword` (from `../utils/helpers.mjs`, not part of this module) and
the email-syntax predicate of `express-validator` are parameters of the
embedding.  Each handler returns the HTTP response together with the
post-state of the store and session and the trace of collaborator
operations it performed; a `Faults` record injects exceptions at each of
the `await`/call sites inside the handler's `try` block.
-/

/-- A user document. `id` is `none` before persistence and
`some _` on the copy returned by the store's save. -/
structure UserDoc where
  id : Option Nat
  username : String
  password : String
  email : String
  deriving Repr, DecidableEq

/-- The request body of `POST /api/register`. -/
structure RegisterInput where
  username : String
  password : String
  email : String
  deriving Repr, DecidableEq

/-- JSON response bodies produced by the module. -/
inductive Body where
  | msg (m : String)
  | msgUser (m : String) (u : UserDoc)
  | available (b : Bool)
  deriving Repr, DecidableEq

/-- An HTTP response: status code and optional JSON body
(the validation-failure branch sends a 400 with no body). -/
structure Response where
  status : Nat
  body : Option Body
  deriving Repr, DecidableEq

/-- A `findOne` query: the module looks up by exact username or exact email. -/
inductive Query where
  | byUsername (u : String)
  | byEmail (e : String)
  deriving Repr, DecidableEq

/-- Collaborator operations a handler can perform, recorded in order. -/
inductive Op where
  | findOne (q : Query)
  | hashCall (plaintext : String)
  | save (u : UserDoc)
  deriving Repr, DecidableEq

/-- Exception injection for the `await`/call sites inside the handlers. -/
structure Faults where
  findUsernameThrows : Bool
  findEmailThrows : Bool
  hashThrows : Bool
  saveThrows : Bool
  deriving Repr, DecidableEq

/-- The fault record under which every collaborator call succeeds. -/
def noFaults : Faults := ⟨false, false, false, false⟩

/-- Request-visible mutable state: the user store and the session slot. -/
structure ReqState where
  db : List UserDoc
  session : Option UserDoc
  deriving Repr, DecidableEq

/-- What a handler produces: the response, the post-state of store and
session, and the trace of collaborator operations it attempted. -/
structure HandlerResult where
  resp : Response
  db : List UserDoc
  session : Option UserDoc
  ops : List Op
  deriving Repr, DecidableEq

/-- `user.findOne({ username })`: exact-match lookup by username. -/
def findOneByUsername (db : List UserDoc) (u : String) : Option UserDoc :=
  db.find? (fun d => d.username == u)

/-- `user.findOne({ email })`: exact-match lookup by email. -/
def findOneByEmail (db : List UserDoc) (e : String) : Option UserDoc :=
  db.find? (fun d => d.email == e)

/-- The three `express-validator` chains of `POST /api/register`:
username non-empty and at least 3 characters, password non-empty and at
least 3 characters, email non-empty and well-formed according to the
library's email predicate (a parameter `isEmail` here).
`validationResult(request).isEmpty()` holds iff this returns `true`. -/
def validationPasses (isEmail : String → Bool) (input : RegisterInput) : Bool :=
  (!input.username.isEmpty) && decide (3 ≤ input.username.length) &&
  (!input.password.isEmpty) && decide (3 ≤ input.password.length) &&
  (!input.email.isEmpty) && isEmail input.email

/-- The `POST /api/register` handler.
`hash` embeds the external `hashPassword`, `isEmail` the validator's email
predicate, `flt` injects exceptions at the four call sites inside `try`,
and `nextId` is the identifier the store assigns on save. -/
def registerHandler (hash : String → String) (isEmail : String → Bool)
    (flt : Faults) (nextId : Nat) (input : RegisterInput) (st : ReqState) :
    HandlerResult :=
  if !(validationPasses isEmail input) then
    -- `return response.status(400);` — no body is attached
    ⟨⟨400, none⟩, st.db, st.session, []⟩
  else
    let ops1 := [Op.findOne (Query.byUsername input.username)]
    if flt.findUsernameThrows then
      ⟨⟨500, some (Body.msg "Error creating user account")⟩, st.db, st.session, ops1⟩
    else
      match findOneByUsername st.db input.username with
      | some _ =>
        ⟨⟨400, some (Body.msg "Username taken")⟩, st.db, st.session, ops1⟩
      | none =>
        let ops2 := ops1 ++ [Op.findOne (Query.byEmail input.email)]
        if flt.findEmailThrows then
          ⟨⟨500, some (Body.msg "Error creating user account")⟩, st.db, st.session, ops2⟩
        else
          match findOneByEmail st.db input.email with
          | some _ =>
            ⟨⟨400, some (Body.msg "Email previously registered")⟩, st.db, st.session, ops2⟩
          | none =>
            let ops3 := ops2 ++ [Op.hashCall input.password]
            if flt.hashThrows then
              ⟨⟨500, some (Body.msg "Error creating user account")⟩, st.db, st.session, ops3⟩
            else
              let hashed := hash input.password
              let newUser : UserDoc := ⟨none, input.username, hashed, input.email⟩
              let ops4 := ops3 ++ [Op.save newUser]
              if flt.saveThrows then
                ⟨⟨500, some (Body.msg "Error creating user account")⟩, st.db, st.session, ops4⟩
              else
                let savedUser : UserDoc := ⟨some nextId, input.username, hashed, input.email⟩
                -- `request.session.user = newUser;` then 201 with `newUser`
                ⟨⟨201, some (Body.msgUser "Registration successful" newUser)⟩,
                 st.db ++ [savedUser], some newUser, ops4⟩

/-- The `GET /api/register/usercheck/:username` handler.
`throws` injects an exception at the single `findOne` await. -/
def usercheckHandler (throws : Bool) (uname : String) (st : ReqState) :
    HandlerResult :=
  let ops := [Op.findOne (Query.byUsername uname)]
  if throws then
    ⟨⟨500, some (Body.msg "Error checking when searching username check")⟩,
     st.db, st.session, ops⟩
  else
    ⟨⟨200, some (Body.available (findOneByUsername st.db uname).isNone)⟩,
     st.db, st.session, ops⟩

/-- The `GET /api/register/emailcheck/:email` handler.
`throws` injects an exception at the single `findOne` await. -/
def emailcheckHandler (throws : Bool) (em : String) (st : ReqState) :
    HandlerResult :=
  let ops := [Op.findOne (Query.byEmail em)]
  if throws then
    ⟨⟨500, some (Body.msg "Error checking email availability")⟩,
     st.db, st.session, ops⟩
  else
    ⟨⟨200, some (Body.available (findOneByEmail st.db em).isNone)⟩,
     st.db, st.session, ops⟩

/-! Helper lemmas shared by several claim proofs. -/

/-- On the success path (validation passes, both lookups miss, no fault)
the handler's full result, computed once and for all. -/
theorem registerHandler_success_eq (hash : String → String) (isEmail : String → Bool)
    (nextId : Nat) (input : RegisterInput) (st : ReqState)
    (hvalid : validationPasses isEmail input = true)
    (hnouser : findOneByUsername st.db input.username = none)
    (hnoemail : findOneByEmail st.db input.email = none) :
    registerHandler hash isEmail noFaults nextId input st =
      ⟨⟨201, some (Body.msgUser "Registration successful"
          ⟨none, input.username, hash input.password, input.email⟩)⟩,
       st.db ++ [⟨some nextId, input.username, hash input.password, input.email⟩],
       some ⟨none, input.username, hash input.password, input.email⟩,
       [Op.findOne (Query.byUsername input.username),
        Op.findOne (Query.byEmail input.email),
        Op.hashCall input.password,
        Op.save ⟨none, input.username, hash input.password, input.email⟩]⟩ := by
  simp [registerHandler, hvalid, hnouser, hnoemail, noFaults]

/-- If one of the three validated conditions fails, so does the whole chain. -/
theorem validationPasses_eq_false (isEmail : String → Bool) (input : RegisterInput)
    (h : input.username.length < 3 ∨ input.password.length < 3 ∨
         isEmail input.email = false) :
    validationPasses isEmail input = false := by
  rw [Bool.eq_false_iff]
  intro hv
  simp only [validationPasses, Bool.and_eq_true, Bool.not_eq_eq_eq_not, Bool.not_true,
    decide_eq_true_eq] at hv
  obtain ⟨⟨⟨⟨⟨-, h1⟩, -⟩, h2⟩, -⟩, h3⟩ := hv
  rcases h with h | h | h
  · omega
  · omega
  · rw [h] at h3
    exact Bool.false_ne_true h3

/-- C1: with no username match and no email match in the store, and a
validated input, `POST /api/register` responds 201 with
`{message: "Registration successful", user: newUser}`; afterwards a record
with that username exists and its stored password is not the plaintext. -/
theorem register_success_contract (hash : String → String) (isEmail : String → Bool)
    (nextId : Nat) (input : RegisterInput) (st : ReqState)
    (hvalid : validationPasses isEmail input = true)
    (hnouser : findOneByUsername st.db input.username = none)
    (hnoemail : findOneByEmail st.db input.email = none)
    (hhash : hash input.password ≠ input.password) :
    (registerHandler hash isEmail noFaults nextId input st).resp.status = 201 ∧
    (registerHandler hash isEmail noFaults nextId input st).resp.body =
      some (Body.msgUser "Registration successful"
        ⟨none, input.username, hash input.password, input.email⟩) ∧
    ∃ u ∈ (registerHandler hash isEmail noFaults nextId input st).db,
      u.username = input.username ∧ u.password ≠ input.password := by
  rw [registerHandler_success_eq hash isEmail nextId input st hvalid hnouser hnoemail]
  refine ⟨rfl, rfl,
    ⟨some nextId, input.username, hash input.password, input.email⟩, ?_, rfl, hhash⟩
  simp

/-- Witness for C1: registering `bobby` against the empty store. -/
theorem register_success_contract_witness :
    (registerHandler (fun p => "#" ++ p) (fun s => s.data.contains '@') noFaults 0
      ⟨"bobby", "secret", "bob@example.com"⟩ ⟨[], none⟩).resp.status = 201 ∧
    (registerHandler (fun p => "#" ++ p) (fun s => s.data.contains '@') noFaults 0
      ⟨"bobby", "secret", "bob@example.com"⟩ ⟨[], none⟩).resp.body =
      some (Body.msgUser "Registration successful"
        ⟨none, "bobby", "#secret", "bob@example.com"⟩) ∧
    ∃ u ∈ (registerHandler (fun p => "#" ++ p) (fun s => s.data.contains '@') noFaults 0
      ⟨"bobby", "secret", "bob@example.com"⟩ ⟨[], none⟩).db,
      u.username = "bobby" ∧ u.password ≠ "secret" :=
  register_success_contract (fun p => "#" ++ p) (fun s => s.data.contains '@') 0
    ⟨"bobby", "secret", "bob@example.com"⟩ ⟨[], none⟩
    (by decide) rfl rfl (by decide)

/-- C2: when the username or password is shorter than 3 characters or the
email fails the syntax predicate, `POST /api/register` responds 400,
leaves store and session untouched, and performs no collaborator
operation at all, whatever the fault injection. -/
theorem register_invalid_input_rejected (hash : String → String)
    (isEmail : String → Bool) (flt : Faults) (nextId : Nat)
    (input : RegisterInput) (st : ReqState)
    (h : input.username.length < 3 ∨ input.password.length < 3 ∨
         isEmail input.email = false) :
    (registerHandler hash isEmail flt nextId input st).resp.status = 400 ∧
    (registerHandler hash isEmail flt nextId input st).db = st.db ∧
    (registerHandler hash isEmail flt nextId input st).session = st.session ∧
    (registerHandler hash isEmail flt nextId input st).ops = [] := by
  have hv := validationPasses_eq_false isEmail input h
  simp [registerHandler, hv]

/-- Witness for C2: a two-character username is rejected with no store op. -/
theorem register_invalid_input_rejected_witness :
    (registerHandler (fun p => "#" ++ p) (fun s => s.data.contains '@') noFaults 0
      ⟨"ab", "secret", "bob@example.com"⟩ ⟨[], none⟩).resp.status = 400 ∧
    (registerHandler (fun p => "#" ++ p) (fun s => s.data.contains '@') noFaults 0
      ⟨"ab", "secret", "bob@example.com"⟩ ⟨[], none⟩).db = ([] : List UserDoc) ∧
    (registerHandler (fun p => "#" ++ p) (fun s => s.data.contains '@') noFaults 0
      ⟨"ab", "secret", "bob@example.com"⟩ ⟨[], none⟩).session = none ∧
    (registerHandler (fun p => "#" ++ p) (fun s => s.data.contains '@') noFaults 0
      ⟨"ab", "secret", "bob@example.com"⟩ ⟨[], none⟩).ops = [] :=
  register_invalid_input_rejected (fun p => "#" ++ p) (fun s => s.data.contains '@')
    noFaults 0 ⟨"ab", "secret", "bob@example.com"⟩ ⟨[], none⟩ (Or.inl (by decide))

/-- C3: when a stored record already carries the requested username,
`POST /api/register` with validated fields responds 400 with
`{message: "Username taken"}` and changes neither store nor session. -/
theorem register_username_taken (hash : String → String) (isEmail : String → Bool)
    (flt : Faults) (nextId : Nat) (input : RegisterInput) (st : ReqState)
    (hvalid : validationPasses isEmail input = true)
    (hnothrow : flt.findUsernameThrows = false)
    (hexists : (findOneByUsername st.db input.username).isSome = true) :
    (registerHandler hash isEmail flt nextId input st).resp.status = 400 ∧
    (registerHandler hash isEmail flt nextId input st).resp.body =
      some (Body.msg "Username taken") ∧
    (registerHandler hash isEmail flt nextId input st).db = st.db ∧
    (registerHandler hash isEmail flt nextId input st).session = st.session := by
  obtain ⟨u, hu⟩ := Option.isSome_iff_exists.mp hexists
  simp [registerHandler, hvalid, hnothrow, hu]

/-- Witness for C3: re-registering `alice` over a store that has her. -/
theorem register_username_taken_witness :
    (registerHandler (fun p => "#" ++ p) (fun s => s.data.contains '@') noFaults 1
      ⟨"alice", "secret", "new@example.com"⟩
      ⟨[⟨some 0, "alice", "#pw", "alice@example.com"⟩], none⟩).resp.status = 400 ∧
    (registerHandler (fun p => "#" ++ p) (fun s => s.data.contains '@') noFaults 1
      ⟨"alice", "secret", "new@example.com"⟩
      ⟨[⟨some 0, "alice", "#pw", "alice@example.com"⟩], none⟩).resp.body =
      some (Body.msg "Username taken") ∧
    (registerHandler (fun p => "#" ++ p) (fun s => s.data.contains '@') noFaults 1
      ⟨"alice", "secret", "new@example.com"⟩
      ⟨[⟨some 0, "alice", "#pw", "alice@example.com"⟩], none⟩).db =
      [⟨some 0, "alice", "#pw", "alice@example.com"⟩] ∧
    (registerHandler (fun p => "#" ++ p) (fun s => s.data.contains '@') noFaults 1
      ⟨"alice", "secret", "new@example.com"⟩
      ⟨[⟨some 0, "alice", "#pw", "alice@example.com"⟩], none⟩).session = none :=
  register_username_taken (fun p => "#" ++ p) (fun s => s.data.contains '@') noFaults 1
    ⟨"alice", "secret", "new@example.com"⟩
    ⟨[⟨some 0, "alice", "#pw", "alice@example.com"⟩], none⟩
    (by decide) rfl (by decide)

/-- C4: with validated fields and no fault on the two lookups, a miss on
username followed by a hit on email yields 400
`{message: "Email previously registered"}` with the store unchanged; and
since the username lookup comes first, a username hit answers
`{message: "Username taken"}` even when the email is also taken. -/
theorem register_email_conflict_and_order (hash : String → String)
    (isEmail : String → Bool) (flt : Faults) (nextId : Nat)
    (input : RegisterInput) (st : ReqState)
    (hvalid : validationPasses isEmail input = true)
    (hnothrow1 : flt.findUsernameThrows = false)
    (hnothrow2 : flt.findEmailThrows = false) :
    (findOneByUsername st.db input.username = none →
      (findOneByEmail st.db input.email).isSome = true →
      (registerHandler hash isEmail flt nextId input st).resp.status = 400 ∧
      (registerHandler hash isEmail flt nextId input st).resp.body =
        some (Body.msg "Email previously registered") ∧
      (registerHandler hash isEmail flt nextId input st).db = st.db) ∧
    ((findOneByUsername st.db input.username).isSome = true →
      (findOneByEmail st.db input.email).isSome = true →
      (registerHandler hash isEmail flt nextId input st).resp.body =
        some (Body.msg "Username taken")) := by
  constructor
  · intro h1 h2
    obtain ⟨u, hu⟩ := Option.isSome_iff_exists.mp h2
    simp [registerHandler, hvalid, hnothrow1, hnothrow2, h1, hu]
  · intro h1 _
    obtain ⟨u, hu⟩ := Option.isSome_iff_exists.mp h1
    simp [registerHandler, hvalid, hnothrow1, hu]

/-- Witness for C4: `bobby` registering with `alice`'s email address. -/
theorem register_email_conflict_and_order_witness :
    (findOneByUsername [⟨some 0, "alice", "#pw", "bob@example.com"⟩] "bobby" = none →
      (findOneByEmail [⟨some 0, "alice", "#pw", "bob@example.com"⟩]
        "bob@example.com").isSome = true →
      (registerHandler (fun p => "#" ++ p) (fun s => s.data.contains '@') noFaults 1
        ⟨"bobby", "secret", "bob@example.com"⟩
        ⟨[⟨some 0, "alice", "#pw", "bob@example.com"⟩], none⟩).resp.status = 400 ∧
      (registerHandler (fun p => "#" ++ p) (fun s => s.data.contains '@') noFaults 1
        ⟨"bobby", "secret", "bob@example.com"⟩
        ⟨[⟨some 0, "alice", "#pw", "bob@example.com"⟩], none⟩).resp.body =
        some (Body.msg "Email previously registered") ∧
      (registerHandler (fun p => "#" ++ p) (fun s => s.data.contains '@') noFaults 1
        ⟨"bobby", "secret", "bob@example.com"⟩
        ⟨[⟨some 0, "alice", "#pw", "bob@example.com"⟩], none⟩).db =
        [⟨some 0, "alice", "#pw", "bob@example.com"⟩]) ∧
    ((findOneByUsername [⟨some 0, "alice", "#pw", "bob@example.com"⟩] "bobby").isSome = true →
      (findOneByEmail [⟨some 0, "alice", "#pw", "bob@example.com"⟩]
        "bob@example.com").isSome = true →
      (registerHandler (fun p => "#" ++ p) (fun s => s.data.contains '@') noFaults 1
        ⟨"bobby", "secret", "bob@example.com"⟩
        ⟨[⟨some 0, "alice", "#pw", "bob@example.com"⟩], none⟩).resp.body =
        some (Body.msg "Username taken")) :=
  register_email_conflict_and_order (fun p => "#" ++ p) (fun s => s.data.contains '@')
    noFaults 1 ⟨"bobby", "secret", "bob@example.com"⟩
    ⟨[⟨some 0, "alice", "#pw", "bob@example.com"⟩], none⟩
    (by decide) rfl rfl

/-- C5: without a store fault, the username availability check responds 200
with `{available: true}` exactly when no record carries that username, and
`{available: false}` otherwise; the email check satisfies the same
contract keyed on email. -/
theorem availability_checks_contract (uname em : String) (st : ReqState) :
    ((usercheckHandler false uname st).resp.status = 200 ∧
     ((usercheckHandler false uname st).resp.body = some (Body.available true) ↔
       findOneByUsername st.db uname = none) ∧
     ((usercheckHandler false uname st).resp.body = some (Body.available false) ↔
       (findOneByUsername st.db uname).isSome = true)) ∧
    ((emailcheckHandler false em st).resp.status = 200 ∧
     ((emailcheckHandler false em st).resp.body = some (Body.available true) ↔
       findOneByEmail st.db em = none) ∧
     ((emailcheckHandler false em st).resp.body = some (Body.available false) ↔
       (findOneByEmail st.db em).isSome = true)) := by
  constructor
  · cases h : findOneByUsername st.db uname <;> simp [usercheckHandler, h]
  · cases h : findOneByEmail st.db em <;> simp [emailcheckHandler, h]

/-- Witness for C5: checks against a store holding only `bobby`. -/
theorem availability_checks_contract_witness :
    (((usercheckHandler false "carol"
        ⟨[⟨some 0, "bobby", "#secret", "bob@example.com"⟩], none⟩).resp.status = 200 ∧
      ((usercheckHandler false "carol"
        ⟨[⟨some 0, "bobby", "#secret", "bob@example.com"⟩], none⟩).resp.body =
          some (Body.available true) ↔
        findOneByUsername [⟨some 0, "bobby", "#secret", "bob@example.com"⟩] "carol" = none) ∧
      ((usercheckHandler false "carol"
        ⟨[⟨some 0, "bobby", "#secret", "bob@example.com"⟩], none⟩).resp.body =
          some (Body.available false) ↔
        (findOneByUsername [⟨some 0, "bobby", "#secret", "bob@example.com"⟩]
          "carol").isSome = true)) ∧
     ((emailcheckHandler false "bob@example.com"
        ⟨[⟨some 0, "bobby", "#secret", "bob@example.com"⟩], none⟩).resp.status = 200 ∧
      ((emailcheckHandler false "bob@example.com"
        ⟨[⟨some 0, "bobby", "#secret", "bob@example.com"⟩], none⟩).resp.body =
          some (Body.available true) ↔
        findOneByEmail [⟨some 0, "bobby", "#secret", "bob@example.com"⟩]
          "bob@example.com" = none) ∧
      ((emailcheckHandler false "bob@example.com"
        ⟨[⟨some 0, "bobby", "#secret", "bob@example.com"⟩], none⟩).resp.body =
          some (Body.available false) ↔
        (findOneByEmail [⟨some 0, "bobby", "#secret", "bob@example.com"⟩]
          "bob@example.com").isSome = true))) :=
  availability_checks_contract "carol" "bob@example.com"
    ⟨[⟨some 0, "bobby", "#secret", "bob@example.com"⟩], none⟩

/-- C6: when a reached collaborator call throws inside `POST /api/register`
(either lookup, the hash call, or the save), the handler answers 500 with
`{message: "Error creating user account"}`; and a throwing lookup makes the
two availability endpoints answer 500 with their error-message bodies. -/
theorem thrown_exceptions_reported_500 (hash : String → String)
    (isEmail : String → Bool) (flt : Faults) (nextId : Nat)
    (input : RegisterInput) (st : ReqState) (uname em : String) (s1 s2 : ReqState)
    (hvalid : validationPasses isEmail input = true)
    (hthrow : flt.findUsernameThrows = true ∨
      (findOneByUsername st.db input.username = none ∧
        flt.findEmailThrows = true) ∨
      (findOneByUsername st.db input.username = none ∧
        findOneByEmail st.db input.email = none ∧ flt.hashThrows = true) ∨
      (findOneByUsername st.db input.username = none ∧
        findOneByEmail st.db input.email = none ∧ flt.saveThrows = true)) :
    ((registerHandler hash isEmail flt nextId input st).resp.status = 500 ∧
     (registerHandler hash isEmail flt nextId input st).resp.body =
       some (Body.msg "Error creating user account")) ∧
    ((usercheckHandler true uname s1).resp.status = 500 ∧
     (usercheckHandler true uname s1).resp.body =
       some (Body.msg "Error checking when searching username check")) ∧
    ((emailcheckHandler true em s2).resp.status = 500 ∧
     (emailcheckHandler true em s2).resp.body =
       some (Body.msg "Error checking email availability")) := by
  refine ⟨?_, ⟨rfl, rfl⟩, ⟨rfl, rfl⟩⟩
  obtain ⟨f1, f2, f3, f4⟩ := flt
  cases f1 <;> cases f2 <;> cases f3 <;> cases f4 <;>
    rcases hthrow with h | ⟨h1, h⟩ | ⟨h1, h2, h⟩ | ⟨h1, h2, h⟩ <;>
      simp_all [registerHandler]

/-- Witness for C6: the username lookup throws on a valid request. -/
theorem thrown_exceptions_reported_500_witness :
    ((registerHandler (fun p => "#" ++ p) (fun s => s.data.contains '@')
        ⟨true, false, false, false⟩ 0
        ⟨"bobby", "secret", "bob@example.com"⟩ ⟨[], none⟩).resp.status = 500 ∧
     (registerHandler (fun p => "#" ++ p) (fun s => s.data.contains '@')
        ⟨true, false, false, false⟩ 0
        ⟨"bobby", "secret", "bob@example.com"⟩ ⟨[], none⟩).resp.body =
       some (Body.msg "Error creating user account")) ∧
    ((usercheckHandler true "carol" ⟨[], none⟩).resp.status = 500 ∧
     (usercheckHandler true "carol" ⟨[], none⟩).resp.body =
       some (Body.msg "Error checking when searching username check")) ∧
    ((emailcheckHandler true "carol@example.com" ⟨[], none⟩).resp.status = 500 ∧
     (emailcheckHandler true "carol@example.com" ⟨[], none⟩).resp.body =
       some (Body.msg "Error checking email availability")) :=
  thrown_exceptions_reported_500 (fun p => "#" ++ p) (fun s => s.data.contains '@')
    ⟨true, false, false, false⟩ 0 ⟨"bobby", "secret", "bob@example.com"⟩ ⟨[], none⟩
    "carol" "carol@example.com" ⟨[], none⟩ ⟨[], none⟩
    (by decide) (Or.inl rfl)

/-- C7: on a successful registration both the session slot and the 201
response carry the pre-persistence `newUser` (identifier still `none`),
which differs from the `savedUser` document the store persisted. -/
theorem session_and_response_get_pre_save_user (hash : String → String)
    (isEmail : String → Bool) (nextId : Nat) (input : RegisterInput) (st : ReqState)
    (hvalid : validationPasses isEmail input = true)
    (hnouser : findOneByUsername st.db input.username = none)
    (hnoemail : findOneByEmail st.db input.email = none) :
    (registerHandler hash isEmail noFaults nextId input st).session =
      some ⟨none, input.username, hash input.password, input.email⟩ ∧
    (registerHandler hash isEmail noFaults nextId input st).resp.body =
      some (Body.msgUser "Registration successful"
        ⟨none, input.username, hash input.password, input.email⟩) ∧
    (registerHandler hash isEmail noFaults nextId input st).db =
      st.db ++ [⟨some nextId, input.username, hash input.password, input.email⟩] ∧
    (⟨none, input.username, hash input.password, input.email⟩ : UserDoc) ≠
      ⟨some nextId, input.username, hash input.password, input.email⟩ := by
  rw [registerHandler_success_eq hash isEmail nextId input st hvalid hnouser hnoemail]
  refine ⟨rfl, rfl, rfl, ?_⟩
  simp

/-- Witness for C7: registering `bobby` against the empty store keeps the
identifier-less document in session and response. -/
theorem session_and_response_get_pre_save_user_witness :
    (registerHandler (fun p => "#" ++ p) (fun s => s.data.contains '@') noFaults 7
      ⟨"bobby", "secret", "bob@example.com"⟩ ⟨[], none⟩).session =
      some ⟨none, "bobby", "#secret", "bob@example.com"⟩ ∧
    (registerHandler (fun p => "#" ++ p) (fun s => s.data.contains '@') noFaults 7
      ⟨"bobby", "secret", "bob@example.com"⟩ ⟨[], none⟩).resp.body =
      some (Body.msgUser "Registration successful"
        ⟨none, "bobby", "#secret", "bob@example.com"⟩) ∧
    (registerHandler (fun p => "#" ++ p) (fun s => s.data.contains '@') noFaults 7
      ⟨"bobby", "secret", "bob@example.com"⟩ ⟨[], none⟩).db =
      [] ++ [⟨some 7, "bobby", "#secret", "bob@example.com"⟩] ∧
    (⟨none, "bobby", "#secret", "bob@example.com"⟩ : UserDoc) ≠
      ⟨some 7, "bobby", "#secret", "bob@example.com"⟩ :=
  session_and_response_get_pre_save_user (fun p => "#" ++ p)
    (fun s => s.data.contains '@') 7 ⟨"bobby", "secret", "bob@example.com"⟩ ⟨[], none⟩
    (by decide) rfl rfl

/-- On every branch the register handler either leaves the session slot
untouched or answers 201. -/
theorem registerHandler_session_or_201 (hash : String → String)
    (isEmail : String → Bool) (flt : Faults) (nextId : Nat)
    (input : RegisterInput) (st : ReqState) :
    (registerHandler hash isEmail flt nextId input st).session = st.session ∨
    (registerHandler hash isEmail flt nextId input st).resp.status = 201 := by
  simp only [registerHandler]
  repeat' split
  all_goals simp

/-- C8: every non-201 outcome of `POST /api/register` — validation failure,
either conflict, or a caught exception — leaves the session unchanged. -/
theorem non_success_leaves_session_unchanged (hash : String → String)
    (isEmail : String → Bool) (flt : Faults) (nextId : Nat)
    (input : RegisterInput) (st : ReqState)
    (h : (registerHandler hash isEmail flt nextId input st).resp.status ≠ 201) :
    (registerHandler hash isEmail flt nextId input st).session = st.session := by
  rcases registerHandler_session_or_201 hash isEmail flt nextId input st with h1 | h1
  · exact h1
  · exact absurd h1 h

/-- Witness for C8: a username conflict (400) leaves the session slot as it
was before the request. -/
theorem non_success_leaves_session_unchanged_witness :
    (registerHandler (fun p => "#" ++ p) (fun s => s.data.contains '@') noFaults 1
      ⟨"alice", "secret", "new@example.com"⟩
      ⟨[⟨some 0, "alice", "#pw", "alice@example.com"⟩], none⟩).resp.status ≠ 201 ∧
    (registerHandler (fun p => "#" ++ p) (fun s => s.data.contains '@') noFaults 1
      ⟨"alice", "secret", "new@example.com"⟩
      ⟨[⟨some 0, "alice", "#pw", "alice@example.com"⟩], none⟩).session = none :=
  ⟨by decide,
   non_success_leaves_session_unchanged (fun p => "#" ++ p)
     (fun s => s.data.contains '@') noFaults 1
     ⟨"alice", "secret", "new@example.com"⟩
     ⟨[⟨some 0, "alice", "#pw", "alice@example.com"⟩], none⟩ (by decide)⟩

/-- C9: on both the success and the error path, the two availability
handlers leave the store and the session exactly as they were, and every
operation in their traces is a `findOne` — never a save. -/
theorem availability_checks_read_only (t1 t2 : Bool) (uname em : String)
    (st1 st2 : ReqState) :
    ((usercheckHandler t1 uname st1).db = st1.db ∧
     (usercheckHandler t1 uname st1).session = st1.session ∧
     ∀ op ∈ (usercheckHandler t1 uname st1).ops, ∃ q, op = Op.findOne q) ∧
    ((emailcheckHandler t2 em st2).db = st2.db ∧
     (emailcheckHandler t2 em st2).session = st2.session ∧
     ∀ op ∈ (emailcheckHandler t2 em st2).ops, ∃ q, op = Op.findOne q) := by
  constructor
  · cases t1 <;> simp [usercheckHandler]
  · cases t2 <;> simp [emailcheckHandler]

/-- C10: on a successful registration the hash collaborator is called
exactly once, on the plaintext password; the hash is the password stored in
the persisted record, in the session's user object and in the 201
response's user, and the plaintext is not what the record stores. -/
theorem password_hashed_once_and_everywhere (hash : String → String)
    (isEmail : String → Bool) (nextId : Nat) (input : RegisterInput) (st : ReqState)
    (hvalid : validationPasses isEmail input = true)
    (hnouser : findOneByUsername st.db input.username = none)
    (hnoemail : findOneByEmail st.db input.email = none)
    (hhash : hash input.password ≠ input.password) :
    (registerHandler hash isEmail noFaults nextId input st).ops.filter
        (fun op => match op with | Op.hashCall _ => true | _ => false) =
      [Op.hashCall input.password] ∧
    (registerHandler hash isEmail noFaults nextId input st).db =
      st.db ++ [⟨some nextId, input.username, hash input.password, input.email⟩] ∧
    (registerHandler hash isEmail noFaults nextId input st).session =
      some ⟨none, input.username, hash input.password, input.email⟩ ∧
    (registerHandler hash isEmail noFaults nextId input st).resp.body =
      some (Body.msgUser "Registration successful"
        ⟨none, input.username, hash input.password, input.email⟩) ∧
    hash input.password ≠ input.password := by
  rw [registerHandler_success_eq hash isEmail nextId input st hvalid hnouser hnoemail]
  exact ⟨rfl, rfl, rfl, rfl, hhash⟩

/-- Witness for C10: registering `bobby` hashes `secret` once and stores
only the hash. -/
theorem password_hashed_once_and_everywhere_witness :
    (registerHandler (fun p => "#" ++ p) (fun s => s.data.contains '@') noFaults 0
      ⟨"bobby", "secret", "bob@example.com"⟩ ⟨[], none⟩).ops.filter
        (fun op => match op with | Op.hashCall _ => true | _ => false) =
      [Op.hashCall "secret"] ∧
    (registerHandler (fun p => "#" ++ p) (fun s => s.data.contains '@') noFaults 0
      ⟨"bobby", "secret", "bob@example.com"⟩ ⟨[], none⟩).db =
      [] ++ [⟨some 0, "bobby", "#secret", "bob@example.com"⟩] ∧
    (registerHandler (fun p => "#" ++ p) (fun s => s.data.contains '@') noFaults 0
      ⟨"bobby", "secret", "bob@example.com"⟩ ⟨[], none⟩).session =
      some ⟨none, "bobby", "#secret", "bob@example.com"⟩ ∧
    (registerHandler (fun p => "#" ++ p) (fun s => s.data.contains '@') noFaults 0
      ⟨"bobby", "secret", "bob@example.com"⟩ ⟨[], none⟩).resp.body =
      some (Body.msgUser "Registration successful"
        ⟨none, "bobby", "#secret", "bob@example.com"⟩) ∧
    ("#secret" : String) ≠ "secret" :=
  password_hashed_once_and_everywhere (fun p => "#" ++ p)
    (fun s => s.data.contains '@') 0 ⟨"bobby", "secret", "bob@example.com"⟩ ⟨[], none⟩
    (by decide) rfl rfl (by decide)
